import Mathlib

/-!
# Verification of the `elastinga` search core

Shallow embedding of `src/elastinga/crud.py`: the query builder
(`construct_multi_field_search`), the suggestion resolver (`suggest`),
the result normalizer (`serialize` with its two hit conversors), the
three-tier escalation (`search_post` / `suggest_post`) and the
per-content-type filter helpers of `TwitterSearch` and `InstagramSearch`.

JSON-like engine payloads are modelled by the inductive `Value`; the
`elasticsearch_dsl.Search` builder is modelled by the structure `Search`
recording the filter context, the query clauses, the size parameter, the
source projection and the suggest clauses it accumulates.  The engine
itself (an external collaborator, not part of the repository) is left
abstract as an oracle function wherever a method executes a query.
-/

/-- JSON-like values: the payloads exchanged with the engine
(`dict` / `list` / `str` / `int` at the granularity the code inspects). -/
inductive Value where
  | str (s : String)
  | int (n : Int)
  | arr (elems : List Value)
  | obj (fields : List (String × Value))

/-- Python `d[key]` on a mapping, as a partial lookup: `some` the first
binding for `key`, `none` when `key` is absent or the value is not a
mapping (Python would raise `KeyError` / `TypeError`). -/
def getVal : Value → String → Option Value
  | .obj fields, key => fields.lookup key
  | _, _ => none

/-- Python `key in d` for a mapping value. -/
def hasKeyV (v : Value) (key : String) : Bool :=
  (getVal v key).isSome

/-- A filter value, Python `Union[str, List[str]]` as annotated on the
filter helpers of `TwitterSearch` / `InstagramSearch`. -/
inductive FilterVal where
  | str (s : String)
  | strs (l : List String)
deriving DecidableEq

/-- Python truthiness of a filter value (`if username:`): the empty
string and the empty list are falsy, everything else truthy. -/
def FilterVal.truthy : FilterVal → Bool
  | .str s => s ≠ ""
  | .strs l => l ≠ []

/-- One filter-context clause accumulated by `Search.filter(op, field=value)`. -/
structure FilterClause where
  op : String
  field : String
  value : FilterVal
deriving DecidableEq

/-- One `multi_match` query clause, `Q("multi_match", query=..., operator=..., fields=...)`. -/
structure MultiMatch where
  query : String
  operator : String
  fields : List String
deriving DecidableEq

/-- One suggest clause accumulated by
`Search.suggest(name, text, kind={"field": field, "max_errors": 3})`. -/
structure SuggestClause where
  name : String
  text : String
  kind : String
  field : String
  maxErrors : Nat
deriving DecidableEq

/-- The `elasticsearch_dsl.Search` builder, recording everything the code
under verification puts into it.  The connection handle and the index
name (fixed per content type) are transport details the claims never
inspect, so they are not carried here. -/
structure Search where
  filters : List FilterClause := []
  queries : List MultiMatch := []
  size : Option Nat := none
  includes : Option (List String) := none
  excludes : Option (List String) := none
  suggestClauses : List SuggestClause := []
deriving DecidableEq

/-- Embeds `BaseSearch.search_base`: a fresh `Search` over the connection and
the index, with no clauses yet. -/
def search_base : Search := {}

/-- Models `search.filter(op, field=value)`: appends one clause to the filter
context. -/
def Search.addFilter (s : Search) (op field : String) (v : FilterVal) : Search :=
  { s with filters := s.filters ++ [⟨op, field, v⟩] }

/-- Models `search.query(q)`: appends one query clause. -/
def Search.addQuery (s : Search) (q : MultiMatch) : Search :=
  { s with queries := s.queries ++ [q] }

/-- Models `search.suggest(name, text, kind={"field": field, "max_errors": m})`. -/
def Search.addSuggest (s : Search) (name text kind field : String) (m : Nat) : Search :=
  { s with suggestClauses := s.suggestClauses ++ [⟨name, text, kind, field, m⟩] }

/-- Python truthiness of `Optional[List[str]]` (`if includes:`). -/
def optListTruthy : Option (List String) → Bool
  | some l => l ≠ []
  | none => false

/-- Embeds `BaseSearch.construct_multi_field_search`: applies the source
projection when the `includes` / `excludes` arguments are truthy, adds
the `multi_match` clause with the given text, operator and fields, and
sets the `size` parameter (the logging call has no effect on the built
query and is not modelled). -/
def construct_multi_field_search (search : Search) (text operator : String)
    (fields : List String) (size : Nat := 5)
    (includes : Option (List String) := none)
    (excludes : Option (List String) := none) : Search :=
  let search := if optListTruthy includes then
      { search with includes := includes } else search
  let search := if optListTruthy excludes then
      { search with excludes := excludes } else search
  let search := search.addQuery ⟨text, operator, fields⟩
  { search with size := some size }

/-- Embeds `TwitterSearch._filter_username_owner`: a `term` filter for a single
string, `terms` filter for a list. -/
def _filter_username_owner (search : Search) (username_owner : FilterVal) : Search :=
  search.addFilter
    (match username_owner with | .str _ => "term" | .strs _ => "terms")
    "username_owner" username_owner

/-- Embeds `TwitterSearch._filter_username_timeline`: a `term` filter for a single
string, `terms` filter for a list. -/
def _filter_username_timeline (search : Search) (username_timeline : FilterVal) : Search :=
  search.addFilter
    (match username_timeline with | .str _ => "term" | .strs _ => "terms")
    "username_timeline" username_timeline

/-- Embeds `InstagramSearch._filter_username`: a `term` filter for a single
string, `terms` filter for a list. -/
def _filter_username (search : Search) (username : FilterVal) : Search :=
  search.addFilter
    (match username with | .str _ => "term" | .strs _ => "terms")
    "username" username

/-! ## Suggestion resolver (`BaseSearch.suggest`) -/

/-- One candidate inside a suggest entry (`suggest.text`). -/
structure SuggestOption where
  text : String
deriving DecidableEq

/-- One suggest entry: the engine returns, per requested suggestion name,
a list of entries each carrying ranked `options`. -/
structure SuggestEntry where
  options : List SuggestOption
deriving DecidableEq

/-- The engine response to a suggest query, as far as `suggest` inspects
it: `hasattr(response, "suggest")` is `Option`-ness of the `suggest`
section, which maps suggestion names to entry lists. -/
structure EngineSuggestResponse where
  suggest : Option (List (String × List SuggestEntry))

/-- The errors `suggest` can raise: `ValueError` on a bad
`suggestion_type`, `NotImplementedError` when the response has no
`suggest` section, and the uncaught `KeyError` / `IndexError` the
extraction would raise on a response missing the requested name or with
an empty entry list. -/
inductive SuggestError where
  | invalidArgument (msg : String)
  | notImplemented
  | keyError
  | indexError
deriving DecidableEq

/-- The suggest query `BaseSearch.suggest` builds for a valid
`suggestion_type` (`phrase` or `term`): `search_base` plus one suggest
clause with `max_errors = 3` on the given field. -/
def suggest_search (text field_name suggestion_type suggestion_name : String) : Search :=
  if suggestion_type = "phrase" then
    search_base.addSuggest suggestion_name text "phrase" field_name 3
  else
    search_base.addSuggest suggestion_name text "term" field_name 3

/-- Extraction half of `BaseSearch.suggest` (lines after `search.execute()`):
fails on a response without a `suggest` section (`hasattr` check →
`NotImplementedError`), otherwise reads the first entry under
`suggestion_name` (`suggestions[suggestion_name][0]`) and returns the
texts of its options in order. -/
def suggest_extract (response : EngineSuggestResponse) (suggestion_name : String) :
    Except SuggestError (List String) :=
  match response.suggest with
  | none => .error .notImplemented
  | some suggestions =>
    match suggestions.lookup suggestion_name with
    | none => .error .keyError
    | some [] => .error .indexError
    | some (entry :: _) => .ok (entry.options.map SuggestOption.text)

/-- Embeds `BaseSearch.suggest`: validates `suggestion_type`, builds the suggest
query, executes it against the engine (the oracle `engine`), and
extracts the candidate texts from the response. -/
def suggest (engine : Search → EngineSuggestResponse)
    (text field_name suggestion_type suggestion_name : String) :
    Except SuggestError (List String) :=
  if suggestion_type = "phrase" ∨ suggestion_type = "term" then
    suggest_extract (engine (suggest_search text field_name suggestion_type suggestion_name))
      suggestion_name
  else
    .error (.invalidArgument "Parametro suggestion_type debe ser term o phrase")

/-- Holds exactly on the `ValueError` raised for a bad `suggestion_type`. -/
def isInvalidArg : Except SuggestError (List String) → Bool
  | .error (.invalidArgument _) => true
  | _ => false

/-! ## Result normalizer (`BaseSearch.serialize`) -/

/-- The `elasticsearch_dsl` wrapper around one raw hit mapping:
`hit.to_dict()` recovers the mapping. -/
structure AttrDict where
  to_dict : List (String × Value)

/-- The `elasticsearch_dsl` `Response` object, as far as `serialize`
inspects it: `response["hits"]["hits"]` yields the wrapped hits. -/
structure DslResponse where
  hits : List AttrDict

/-- The `Union[Response, dict]` argument of `serialize`; the
`isinstance(response, Response)` dispatch becomes a `match` on the tag. -/
inductive SerializeInput where
  | dsl (r : DslResponse)
  | raw (d : Value)

/-- Embeds `BaseSearch._hit_dsl_conversor`:
`hit.to_dict() if include_meta else hit.to_dict()["_source"]`
(`none` models the `KeyError` when `_source` is absent). -/
def _hit_dsl_conversor (hit : AttrDict) (include_meta : Bool) : Option Value :=
  if include_meta then some (.obj hit.to_dict)
  else getVal (.obj hit.to_dict) "_source"

/-- Embeds `BaseSearch._hit_conversor`: `hit if include_meta else hit["_source"]`. -/
def _hit_conversor (hit : Value) (include_meta : Bool) : Option Value :=
  if include_meta then some hit else getVal hit "_source"

/-- The list comprehension `[conversor(hit, include_meta) for hit in hits]`:
every conversion must succeed, and the outputs keep the input order. -/
def traverseOption (f : α → Option β) : List α → Option (List β)
  | [] => some []
  | a :: as =>
    match f a, traverseOption f as with
    | some b, some bs => some (b :: bs)
    | _, _ => none

/-- Python `response["hits"]["hits"]` on a raw mapping, iterated as a
list: `none` models the uncaught `KeyError` / `TypeError` a malformed
raw shape would raise. -/
def rawHitsList (d : Value) : Option (List Value) :=
  match getVal d "hits" with
  | none => none
  | some hv =>
    match getVal hv "hits" with
    | some (.arr hits) => some hits
    | _ => none

/-- Embeds `BaseSearch.serialize`: dispatches on the runtime type of `response`,
reads `response["hits"]["hits"]` and converts every hit with the selected
conversor. -/
def serialize (response : SerializeInput) (include_meta : Bool) : Option (List Value) :=
  match response with
  | .dsl r => traverseOption (fun h => _hit_dsl_conversor h include_meta) r.hits
  | .raw d =>
    match rawHitsList d with
    | some hits => traverseOption (fun h => _hit_conversor h include_meta) hits
    | none => none

/-- The hit mappings a `serialize` argument carries: the unwrapped dicts
of a dsl response, or the entries of `response["hits"]["hits"]` of a raw
mapping (`none` when the raw shape is malformed). -/
def inputHitDicts : SerializeInput → Option (List Value)
  | .dsl r => some (r.hits.map (fun h => .obj h.to_dict))
  | .raw d => rawHitsList d

/-- A well-formed engine hit: a mapping carrying the envelope fields
`_id`, `_score`, `_index` and a `_source` mapping that holds only
document-body fields (no envelope keys). -/
def wfHit (hit : Value) : Bool :=
  hasKeyV hit "_id" && hasKeyV hit "_score" && hasKeyV hit "_index" &&
  match getVal hit "_source" with
  | some (.obj src) =>
    !hasKeyV (.obj src) "_id" && !hasKeyV (.obj src) "_score" && !hasKeyV (.obj src) "_index"
  | _ => false

/-! ## Three-tier escalation (`BaseSearch.search_post` / `suggest_post`)

`_search_post` is abstract in `BaseSearch` (overridden per content type),
so the escalation is modelled over an arbitrary tier function
`f : text → operator → kwargs → results`; the keyword arguments are an
arbitrary type `K` threaded unchanged, exactly like Python's `**kwargs`.
Each run also returns the trace of engine interactions, so that claims
about which tiers execute are statements about the code, not paraphrases.
-/

/-- One engine interaction of the escalation: a `_search_post` tier run
with its text, operator and keyword arguments, or the `suggest` call of
`suggest_post` with its literal arguments. -/
inductive TierCall (K : Type) where
  | searchTier (text operator : String) (kwargs : K)
  | suggestion (text field_name suggestion_type suggestion_name : String)

/-- Embeds `BaseSearch.suggest_post`: corrects the text via
`suggest(text=text, field_name="text", suggestion_type="phrase",
suggestion_name="post_suggest")`; when a candidate list comes back
non-empty, runs `_search_post(candidates[0], "or", **kwargs)` and returns
its result, otherwise returns `list()`.  A `suggest` exception
propagates. -/
def suggest_post {K : Type} (engine : Search → EngineSuggestResponse)
    (f : String → String → K → List Value) (text : String) (kwargs : K) :
    Except SuggestError (List Value × List (TierCall K)) :=
  match suggest engine text "text" "phrase" "post_suggest" with
  | .error e => .error e
  | .ok [] => .ok ([], [.suggestion text "text" "phrase" "post_suggest"])
  | .ok (top :: _) =>
    .ok (f top "or" kwargs,
      [.suggestion text "text" "phrase" "post_suggest", .searchTier top "or" kwargs])

/-- Embeds `BaseSearch.search_post`: runs `_search_post(text, "and", **kwargs)`;
if empty, `_search_post(text, "or", **kwargs)`; if still empty, falls
back to `suggest_post(text, **kwargs)`. -/
def search_post {K : Type} (engine : Search → EngineSuggestResponse)
    (f : String → String → K → List Value) (text : String) (kwargs : K) :
    Except SuggestError (List Value × List (TierCall K)) :=
  let posts := f text "and" kwargs
  if !posts.isEmpty then .ok (posts, [.searchTier text "and" kwargs])
  else
    let posts := f text "or" kwargs
    if !posts.isEmpty then
      .ok (posts, [.searchTier text "and" kwargs, .searchTier text "or" kwargs])
    else
      match suggest_post engine f text kwargs with
      | .error e => .error e
      | .ok (r, calls) =>
        .ok (r, .searchTier text "and" kwargs :: .searchTier text "or" kwargs :: calls)

/-! ## Per-content-type query construction

`TwitterSearch._search_post` and `InstagramSearch._search_post` build a
`Search` (filters plus `construct_multi_field_search`), execute it and
serialize the response.  The query each one hands to the engine is the
part the code determines; execution is an external oracle. -/

/-- The query `TwitterSearch._search_post` executes: `search_base`, then
the `username_timeline` filter when that argument is not `None`, then the
`username_owner` filter when that argument is not `None`, then the
multi-field search on `["text"]`. -/
def twitter_search_post_query (text search_operator : String)
    (search_size : Nat := 5)
    (username_owner : Option FilterVal := none)
    (username_timeline : Option FilterVal := none)
    (includes : Option (List String) := none)
    (excludes : Option (List String) := none) : Search :=
  let base := search_base
  let base := match username_timeline with
    | some v => _filter_username_timeline base v
    | none => base
  let base := match username_owner with
    | some v => _filter_username_owner base v
    | none => base
  construct_multi_field_search base text search_operator ["text"] search_size includes excludes

/-- The query `InstagramSearch._search_post` executes: `search_base`,
then the `username` filter when that argument is truthy (`if username:`),
then the multi-field search on `["text"]`. -/
def instagram_search_post_query (text search_operator : String)
    (search_size : Nat := 5)
    (username : Option FilterVal := none)
    (includes : Option (List String) := none)
    (excludes : Option (List String) := none) : Search :=
  let base := search_base
  let base := match username with
    | some v => if v.truthy then _filter_username base v else base
    | none => base
  construct_multi_field_search base text search_operator ["text"] search_size includes excludes

/-- Modelled from the spec: engine execution is performed by the search
engine, an external collaborator the repository does not contain.  Per
the spec, the query builder "applies the size bound as a result-count
cap", so executing a query returns at most `size` of the engine's
matching hits (10, the engine default page, when no size was set). -/
def engineExecuteCapped (matching : List Value) (s : Search) : List Value :=
  matching.take (s.size.getD 10)

/-! ## Generic lemmas about the query builder and `traverseOption` -/

/-- The multi-field builder only appends the `multi_match` clause and
sets the size: the filter context is untouched. -/
theorem construct_filters (search : Search) (text operator : String)
    (fields : List String) (size : Nat) (includes excludes : Option (List String)) :
    (construct_multi_field_search search text operator fields size includes excludes).filters
      = search.filters := by
  unfold construct_multi_field_search Search.addQuery
  cases optListTruthy includes <;> cases optListTruthy excludes <;> rfl

/-- The multi-field builder appends exactly one `multi_match` clause. -/
theorem construct_queries (search : Search) (text operator : String)
    (fields : List String) (size : Nat) (includes excludes : Option (List String)) :
    (construct_multi_field_search search text operator fields size includes excludes).queries
      = search.queries ++ [⟨text, operator, fields⟩] := by
  unfold construct_multi_field_search Search.addQuery
  cases optListTruthy includes <;> cases optListTruthy excludes <;> rfl

/-- The multi-field builder sets the size parameter to its argument. -/
theorem construct_size (search : Search) (text operator : String)
    (fields : List String) (size : Nat) (includes excludes : Option (List String)) :
    (construct_multi_field_search search text operator fields size includes excludes).size
      = some size := by
  unfold construct_multi_field_search Search.addQuery
  cases optListTruthy includes <;> cases optListTruthy excludes <;> rfl

/-! ## Claim theorems: filters and query builder -/

/-- C3: for every filterable field (Twitter `username_owner`, Twitter
`username_timeline`, Instagram `username`), a single string value yields
a `term` (exact-match) filter clause and a list — including the
one-element list `[s]` — yields a `terms` (set-membership) clause; the
two operation kinds are never equal. -/
theorem filter_scalar_vs_collection (search : Search) (s : String) (l : List String) :
    (_filter_username_owner search (.str s)).filters
        = search.filters ++ [⟨"term", "username_owner", .str s⟩]
  ∧ (_filter_username_owner search (.strs l)).filters
        = search.filters ++ [⟨"terms", "username_owner", .strs l⟩]
  ∧ (_filter_username_owner search (.strs [s])).filters
        = search.filters ++ [⟨"terms", "username_owner", .strs [s]⟩]
  ∧ (_filter_username_timeline search (.str s)).filters
        = search.filters ++ [⟨"term", "username_timeline", .str s⟩]
  ∧ (_filter_username_timeline search (.strs l)).filters
        = search.filters ++ [⟨"terms", "username_timeline", .strs l⟩]
  ∧ (_filter_username search (.str s)).filters
        = search.filters ++ [⟨"term", "username", .str s⟩]
  ∧ (_filter_username search (.strs l)).filters
        = search.filters ++ [⟨"terms", "username", .strs l⟩]
  ∧ "term" ≠ "terms" :=
  ⟨rfl, rfl, rfl, rfl, rfl, rfl, rfl, by decide⟩

/-- C10: `InstagramSearch._search_post` drops the `username` filter for
the falsy values `""` and `[]` (the query it executes carries no filter
clause), while `TwitterSearch._search_post` applies its `username_owner`
and `username_timeline` filters for every non-`None` value — the empty
string and the empty list included. -/
theorem empty_filter_value_divergence (text operator : String) (size : Nat)
    (includes excludes : Option (List String)) :
    (instagram_search_post_query text operator size (some (.str "")) includes excludes).filters
        = []
  ∧ (instagram_search_post_query text operator size (some (.strs [])) includes excludes).filters
        = []
  ∧ (∀ v : FilterVal,
      (twitter_search_post_query text operator size (some v) none includes excludes).filters
        = [⟨match v with | .str _ => "term" | .strs _ => "terms", "username_owner", v⟩])
  ∧ (∀ v : FilterVal,
      (twitter_search_post_query text operator size none (some v) includes excludes).filters
        = [⟨match v with | .str _ => "term" | .strs _ => "terms", "username_timeline", v⟩])
  ∧ (twitter_search_post_query text operator size (some (.str "")) none includes excludes).filters
        = [⟨"term", "username_owner", .str ""⟩]
  ∧ (twitter_search_post_query text operator size (some (.strs [])) none includes excludes).filters
        = [⟨"terms", "username_owner", .strs []⟩] := by
  refine ⟨?_, ?_, ?_, ?_, ?_, ?_⟩
  · simp [instagram_search_post_query, construct_filters, FilterVal.truthy, search_base]
  · simp [instagram_search_post_query, construct_filters, FilterVal.truthy, search_base]
  · intro v
    cases v <;>
      simp [twitter_search_post_query, construct_filters, _filter_username_owner,
        Search.addFilter, search_base]
  · intro v
    cases v <;>
      simp [twitter_search_post_query, construct_filters, _filter_username_timeline,
        Search.addFilter, search_base]
  · simp [twitter_search_post_query, construct_filters, _filter_username_owner,
      Search.addFilter, search_base]
  · simp [twitter_search_post_query, construct_filters, _filter_username_owner,
      Search.addFilter, search_base]

/-- C9: for non-empty `fields` and positive `size`, the built query
carries exactly one `multi_match` clause with the given text, operator
and field list (appended to the base query's clauses), its size parameter
equals the requested size (which defaults to 5), engine execution under
the spec's result-count-cap semantics returns at most `size` hits, and a
truthy `includes` / `excludes` projection is applied onto the query. -/
theorem query_builder_multi_match_and_size_cap (search : Search)
    (text operator : String) (fields : List String) (size : Nat)
    (includes excludes : Option (List String)) (matching : List Value)
    (_hf : fields ≠ []) (_hs : 0 < size) :
    (construct_multi_field_search search text operator fields size includes excludes).queries
        = search.queries ++ [⟨text, operator, fields⟩]
  ∧ (construct_multi_field_search search text operator fields size includes excludes).size
        = some size
  ∧ (engineExecuteCapped matching
        (construct_multi_field_search search text operator fields size includes excludes)).length
        ≤ size
  ∧ (∀ l, includes = some l → l ≠ [] →
      (construct_multi_field_search search text operator fields size includes excludes).includes
        = some l)
  ∧ (∀ l, excludes = some l → l ≠ [] →
      (construct_multi_field_search search text operator fields size includes excludes).excludes
        = some l)
  ∧ construct_multi_field_search search text operator fields
      = construct_multi_field_search search text operator fields 5 none none := by
  refine ⟨construct_queries .., construct_size .., ?_, ?_, ?_, rfl⟩
  · unfold engineExecuteCapped
    rw [construct_size]
    simp [List.length_take_le size matching]
  · rintro l rfl hl
    unfold construct_multi_field_search Search.addQuery
    have : optListTruthy (some l) = true := by simp [optListTruthy, hl]
    rw [this]
    cases optListTruthy excludes <;> simp
  · rintro l rfl hl
    unfold construct_multi_field_search Search.addQuery
    have : optListTruthy (some l) = true := by simp [optListTruthy, hl]
    rw [this]
    cases optListTruthy includes <;> simp

/-- C9 witness: a concrete instantiation of the query-builder theorem. -/
theorem query_builder_multi_match_and_size_cap_witness :
    (construct_multi_field_search search_base "hola" "and" ["text"] 2
        (some ["text"]) none).queries = [⟨"hola", "and", ["text"]⟩]
  ∧ (construct_multi_field_search search_base "hola" "and" ["text"] 2
        (some ["text"]) none).size = some 2
  ∧ (engineExecuteCapped [.str "a", .str "b", .str "c"]
        (construct_multi_field_search search_base "hola" "and" ["text"] 2
          (some ["text"]) none)).length ≤ 2
  ∧ (construct_multi_field_search search_base "hola" "and" ["text"] 2
        (some ["text"]) none).includes = some ["text"] := by
  obtain ⟨h1, h2, h3, h4, -, -⟩ :=
    query_builder_multi_match_and_size_cap search_base "hola" "and" ["text"] 2
      (some ["text"]) none [.str "a", .str "b", .str "c"]
      (by decide) (by decide)
  exact ⟨h1, h2, h3, h4 ["text"] rfl (by decide)⟩

/-! ## Claim theorems: suggestion resolver -/

/-- Any extracted suggest result is never the `ValueError` raised for a
bad `suggestion_type`. -/
theorem isInvalidArg_suggest_extract (response : EngineSuggestResponse) (name : String) :
    isInvalidArg (suggest_extract response name) = false := by
  unfold suggest_extract
  rcases response with ⟨_ | suggestions⟩
  · rfl
  · simp only
    rcases suggestions.lookup name with _ | (_ | ⟨entry, rest⟩) <;> rfl

/-- C7: a `suggestion_type` outside `{"phrase", "term"}` makes `suggest`
fail with the `ValueError` at once — the result does not depend on the
engine, so no query is issued — while for `"phrase"` and `"term"` that
error is never raised. -/
theorem suggest_invalid_kind (engine engineB : Search → EngineSuggestResponse)
    (text field_name suggestion_type suggestion_name : String) :
    (suggestion_type ≠ "phrase" → suggestion_type ≠ "term" →
      suggest engine text field_name suggestion_type suggestion_name
          = .error (.invalidArgument "Parametro suggestion_type debe ser term o phrase")
      ∧ suggest engine text field_name suggestion_type suggestion_name
          = suggest engineB text field_name suggestion_type suggestion_name)
  ∧ (suggestion_type = "phrase" ∨ suggestion_type = "term" →
      isInvalidArg (suggest engine text field_name suggestion_type suggestion_name)
          = false) := by
  constructor
  · intro h1 h2
    have hcond : ¬(suggestion_type = "phrase" ∨ suggestion_type = "term") := by
      rintro (h | h) <;> [exact h1 h; exact h2 h]
    constructor <;> simp [suggest, hcond]
  · intro h
    rw [suggest, if_pos h]
    exact isInvalidArg_suggest_extract ..

/-- C7 witness: `suggest` with kind `"fuzzy"` fails with the
`ValueError` whatever the engine answers, and with kind `"phrase"` it
does not raise it. -/
theorem suggest_invalid_kind_witness :
    suggest (fun _ => ⟨none⟩) "hola" "text" "fuzzy" "s1"
        = .error (.invalidArgument "Parametro suggestion_type debe ser term o phrase")
  ∧ isInvalidArg (suggest (fun _ => ⟨none⟩) "hola" "text" "phrase" "s1") = false :=
  ⟨((suggest_invalid_kind (fun _ => ⟨none⟩) (fun _ => ⟨none⟩) "hola" "text" "fuzzy" "s1").1
      (by decide) (by decide)).1,
    (suggest_invalid_kind (fun _ => ⟨none⟩) (fun _ => ⟨none⟩) "hola" "text" "phrase" "s1").2
      (Or.inl rfl)⟩

/-- C8: for a valid kind, a response without a `suggest` section makes
`suggest` fail with the unimplemented-path error (`NotImplementedError`)
rather than return `[]`; when the section is present and the request's
name maps to a first entry `entry` (whatever further entries follow),
`suggest` returns exactly the texts of that first entry's options in
order. -/
theorem suggest_missing_section_and_first_entry
    (engine : Search → EngineSuggestResponse)
    (text field_name suggestion_type suggestion_name : String)
    (hk : suggestion_type = "phrase" ∨ suggestion_type = "term") :
    ((engine (suggest_search text field_name suggestion_type suggestion_name)).suggest = none →
      suggest engine text field_name suggestion_type suggestion_name
        = .error .notImplemented)
  ∧ (∀ suggestions entry rest,
      (engine (suggest_search text field_name suggestion_type suggestion_name)).suggest
          = some suggestions →
      suggestions.lookup suggestion_name = some (entry :: rest) →
      suggest engine text field_name suggestion_type suggestion_name
        = .ok (entry.options.map SuggestOption.text)) := by
  constructor
  · intro hnone
    rw [suggest, if_pos hk, suggest_extract, hnone]
  · intro suggestions entry rest hsome hlook
    rw [suggest, if_pos hk, suggest_extract, hsome]
    simp only [hlook]

/-- C8 witness: a concrete engine without a `suggest` section makes
`suggest` fail with the unimplemented-path error, and a concrete engine
whose first `post_suggest` entry offers `"happy"` makes it return
`["happy"]`. -/
theorem suggest_missing_section_and_first_entry_witness :
    suggest (fun _ => ⟨none⟩) "hapy" "text" "phrase" "post_suggest"
        = .error .notImplemented
  ∧ suggest (fun _ => ⟨some [("post_suggest", [⟨[⟨"happy"⟩]⟩])]⟩)
        "hapy" "text" "phrase" "post_suggest" = .ok ["happy"] :=
  ⟨(suggest_missing_section_and_first_entry (fun _ => ⟨none⟩)
      "hapy" "text" "phrase" "post_suggest" (Or.inl rfl)).1 rfl,
    (suggest_missing_section_and_first_entry
        (fun _ => ⟨some [("post_suggest", [⟨[⟨"happy"⟩]⟩])]⟩)
        "hapy" "text" "phrase" "post_suggest" (Or.inl rfl)).2
      [("post_suggest", [⟨[⟨"happy"⟩]⟩])] ⟨[⟨"happy"⟩]⟩ [] rfl rfl⟩

/-! ## Claim theorems: three-tier escalation -/

/-- C1: for every tier function, engine, text and keyword arguments, the
escalation runs the `"and"` tier first; a non-empty `"and"` result is
returned with the trace showing that single tier, and when the `"and"`
tier is empty but the `"or"` tier is not, the `"or"` result is returned
with the trace showing exactly the `"and"` then `"or"` tiers — the
suggestion tier never appears. -/
theorem search_post_escalation_order {K : Type}
    (engine : Search → EngineSuggestResponse)
    (f : String → String → K → List Value) (text : String) (kwargs : K) :
    (f text "and" kwargs ≠ [] →
      search_post engine f text kwargs
        = .ok (f text "and" kwargs, [.searchTier text "and" kwargs]))
  ∧ (f text "and" kwargs = [] → f text "or" kwargs ≠ [] →
      search_post engine f text kwargs
        = .ok (f text "or" kwargs,
            [.searchTier text "and" kwargs, .searchTier text "or" kwargs])) := by
  constructor
  · intro hand
    rw [search_post]
    simp [List.isEmpty_iff, hand]
  · intro hand hor
    rw [search_post]
    simp [List.isEmpty_iff, hand, hor]

/-- Tier function for the escalation witnesses: no strict match, one
relaxed match. -/
def tierFnOrHit : String → String → Unit → List Value :=
  fun _ operator _ => if operator = "or" then [.str "h"] else []

/-- C1 witness: with no `"and"` match and one `"or"` match, the
escalation returns the relaxed result after exactly the two tiers. -/
theorem search_post_escalation_order_witness :
    search_post (fun _ => ⟨none⟩) tierFnOrHit "q" ()
      = .ok ([.str "h"], [.searchTier "q" "and" (), .searchTier "q" "or" ()]) :=
  (search_post_escalation_order (fun _ => ⟨none⟩) tierFnOrHit "q" ()).2
    rfl (by simp [tierFnOrHit])

/-- C2: when both the `"and"` and `"or"` tiers are empty, the escalation
invokes `suggest` on the original text with field `"text"`, kind
`"phrase"` and name `"post_suggest"`; if that yields a first candidate
`top`, exactly one more query runs — the `"or"` tier on `top` with the
original keyword arguments — and its (possibly empty) result is
returned; if it yields no candidate, `[]` is returned.  The trace shows
no further tier in either case. -/
theorem suggestion_tier_is_last {K : Type}
    (engine : Search → EngineSuggestResponse)
    (f : String → String → K → List Value) (text : String) (kwargs : K)
    (hand : f text "and" kwargs = []) (hor : f text "or" kwargs = []) :
    (∀ top rest,
      suggest engine text "text" "phrase" "post_suggest" = .ok (top :: rest) →
      search_post engine f text kwargs
        = .ok (f top "or" kwargs,
            [.searchTier text "and" kwargs, .searchTier text "or" kwargs,
             .suggestion text "text" "phrase" "post_suggest",
             .searchTier top "or" kwargs]))
  ∧ (suggest engine text "text" "phrase" "post_suggest" = .ok [] →
      search_post engine f text kwargs
        = .ok ([], [.searchTier text "and" kwargs, .searchTier text "or" kwargs,
                    .suggestion text "text" "phrase" "post_suggest"])) := by
  constructor
  · intro top rest hsugg
    rw [search_post]
    simp only [hand, hor, List.isEmpty_nil, Bool.not_true, if_neg (by decide : ¬false = true)]
    rw [suggest_post, hsugg]
  · intro hsugg
    rw [search_post]
    simp only [hand, hor, List.isEmpty_nil, Bool.not_true, if_neg (by decide : ¬false = true)]
    rw [suggest_post, hsugg]

/-- Engine for the suggestion-tier witness: one `post_suggest` candidate,
`"fixed"`. -/
def oneSuggestEngine : Search → EngineSuggestResponse :=
  fun _ => ⟨some [("post_suggest", [⟨[⟨"fixed"⟩]⟩])]⟩

/-- Tier function for the suggestion-tier witness: only the corrected
text `"fixed"` matches. -/
def tierFnFixedHit : String → String → Unit → List Value :=
  fun text _ _ => if text = "fixed" then [.str "h"] else []

/-- C2 witness: with both tiers empty on `"q"` and the engine suggesting
`"fixed"`, the escalation returns the relaxed-tier result for `"fixed"`
after exactly the four recorded interactions. -/
theorem suggestion_tier_is_last_witness :
    search_post oneSuggestEngine tierFnFixedHit "q" ()
      = .ok ([.str "h"],
          [.searchTier "q" "and" (), .searchTier "q" "or" (),
           .suggestion "q" "text" "phrase" "post_suggest",
           .searchTier "fixed" "or" ()]) :=
  (suggestion_tier_is_last oneSuggestEngine tierFnFixedHit "q" ()
      (by simp [tierFnFixedHit]) (by simp [tierFnFixedHit])).1 "fixed" [] rfl

/-! ## Generic lemmas about the result normalizer -/

/-- Traversal of a mapped list composes the functions. -/
theorem traverseOption_map {α β γ : Type} (f : β → Option γ) (g : α → β) (l : List α) :
    traverseOption f (l.map g) = traverseOption (fun a => f (g a)) l := by
  induction l with
  | nil => rfl
  | cons a as ih => simp [traverseOption, ih]

/-- The dsl conversor on a wrapped hit is the plain conversor on the
unwrapped mapping. -/
theorem hit_dsl_conversor_eq (h : AttrDict) (include_meta : Bool) :
    _hit_dsl_conversor h include_meta = _hit_conversor (.obj h.to_dict) include_meta := rfl

/-- Whenever the input carries a hit list, `serialize` is the traversal
of the plain conversor over those hit mappings — for both response
shapes. -/
theorem serialize_eq_of_hits (input : SerializeInput) (ds : List Value)
    (include_meta : Bool) (h : inputHitDicts input = some ds) :
    serialize input include_meta
      = traverseOption (fun v => _hit_conversor v include_meta) ds := by
  cases input with
  | dsl r =>
    simp only [inputHitDicts, Option.some.injEq] at h
    subst h
    rw [traverseOption_map]
    rfl
  | raw d =>
    simp only [inputHitDicts] at h
    simp only [serialize]
    rw [h]

/-- A successful traversal preserves length and is pointwise the given
function, in order. -/
theorem traverseOption_some_spec {α β : Type} (f : α → Option β) :
    ∀ (l : List α) (out : List β), traverseOption f l = some out →
      out.length = l.length ∧ ∀ i, out.get? i = (l.get? i).bind f := by
  intro l
  induction l with
  | nil =>
    intro out h
    simp only [traverseOption, Option.some.injEq] at h
    subst h
    exact ⟨rfl, fun i => by cases i <;> rfl⟩
  | cons a as ih =>
    intro out h
    simp only [traverseOption] at h
    rcases hfa : f a with _ | b <;> rw [hfa] at h
    · exact absurd h (by simp)
    · rcases hrest : traverseOption f as with _ | bs <;> rw [hrest] at h
      · exact absurd h (by simp)
      · simp only [Option.some.injEq] at h
        subst h
        obtain ⟨hlen, hget⟩ := ih bs hrest
        refine ⟨by simp [hlen], fun i => ?_⟩
        cases i with
        | zero => simp [hfa]
        | succ n => simpa using hget n

/-! ## Claim theorems: result normalizer -/

/-- The raw mapping shape of an engine response holding the given hit
mappings: the equivalent-data counterpart of a dsl response wrapping
them. -/
def mkRawResponse (hits : List Value) : Value :=
  .obj [("hits", .obj [("hits", .arr hits)])]

/-- C5: for every list of hit mappings and every `include_meta` flag,
`serialize` produces identical output on the structured dsl response
wrapping those hits and on the equivalent raw nested mapping under
`hits.hits` — the two conversion branches agree on equivalent data. -/
theorem serialize_shape_invariance (ds : List (List (String × Value)))
    (include_meta : Bool) :
    serialize (.dsl ⟨ds.map AttrDict.mk⟩) include_meta
      = serialize (.raw (mkRawResponse (ds.map Value.obj))) include_meta := by
  have hraw : rawHitsList (mkRawResponse (ds.map Value.obj)) = some (ds.map Value.obj) := by
    simp [rawHitsList, mkRawResponse, getVal]
  simp only [serialize, hraw]
  rw [traverseOption_map, traverseOption_map]
  rfl

/-- C6: whenever the input carries a hit list and `serialize` succeeds,
it emits exactly one record per input hit — same length, and the record
at every position is the conversion of the hit at that position (no
deduplication, reordering or filtering) — and an input with an empty hit
list yields `some []`, not an error. -/
theorem serialize_order_and_count (input : SerializeInput) (ds : List Value)
    (include_meta : Bool) (h : inputHitDicts input = some ds) :
    (∀ out, serialize input include_meta = some out →
      out.length = ds.length
      ∧ ∀ i, out.get? i = (ds.get? i).bind (fun d => _hit_conversor d include_meta))
  ∧ (ds = [] → serialize input include_meta = some []) := by
  have hs := serialize_eq_of_hits input ds include_meta h
  constructor
  · intro out hout
    rw [hs] at hout
    exact traverseOption_some_spec _ ds out hout
  · rintro rfl
    rw [hs]
    rfl

/-- C6 witness: on a concrete two-hit raw response the output length
matches the hit count, and the empty raw response serializes to `[]`. -/
theorem serialize_order_and_count_witness :
    ([Value.str "a", Value.str "b"] : List Value).length = 2
  ∧ serialize (.raw (mkRawResponse [])) false = some [] := by
  constructor
  · exact ((serialize_order_and_count
        (.raw (mkRawResponse [.obj [("_source", .str "a")], .obj [("_source", .str "b")]]))
        [.obj [("_source", .str "a")], .obj [("_source", .str "b")]] false rfl).1
        [.str "a", .str "b"] rfl).1
  · exact (serialize_order_and_count (.raw (mkRawResponse [])) [] false rfl).2 rfl

/-- A traversal whose function succeeds on every element succeeds, and
every output record comes from some input element. -/
theorem traverseOption_total {α β : Type} (f : α → Option β) :
    ∀ (l : List α), (∀ a ∈ l, (f a).isSome = true) →
      ∃ out, traverseOption f l = some out ∧ ∀ r ∈ out, ∃ a ∈ l, f a = some r := by
  intro l
  induction l with
  | nil => exact fun _ => ⟨[], rfl, by simp⟩
  | cons a as ih =>
    intro h
    obtain ⟨out, hout, hmem⟩ := ih fun x hx => h x (List.mem_cons_of_mem _ hx)
    obtain ⟨b, hb⟩ := Option.isSome_iff_exists.mp (h a (List.mem_cons_self a as))
    refine ⟨b :: out, by simp [traverseOption, hb, hout], ?_⟩
    intro r hr
    rcases List.mem_cons.mp hr with rfl | hr
    · exact ⟨a, List.mem_cons_self a as, hb⟩
    · obtain ⟨x, hx, hfx⟩ := hmem r hr
      exact ⟨x, List.mem_cons_of_mem _ hx, hfx⟩

/-- Traversing with `some` is the identity. -/
theorem traverseOption_pure {α : Type} (l : List α) :
    traverseOption (fun a => some a) l = some l := by
  induction l with
  | nil => rfl
  | cons a as ih => simp [traverseOption, ih]

/-- Unfolding of well-formedness: a well-formed hit carries the three
envelope fields and a `_source` value free of them. -/
theorem wfHit_spec (d : Value) (h : wfHit d = true) :
    hasKeyV d "_id" = true ∧ hasKeyV d "_score" = true ∧ hasKeyV d "_index" = true
    ∧ ∃ src, getVal d "_source" = some src
        ∧ hasKeyV src "_id" = false ∧ hasKeyV src "_score" = false
        ∧ hasKeyV src "_index" = false := by
  unfold wfHit at h
  rcases hsrc : getVal d "_source" with _ | v <;> rw [hsrc] at h
  · simp at h
  · cases v with
    | obj src =>
      simp only [Bool.and_eq_true, Bool.not_eq_true'] at h
      obtain ⟨⟨⟨h1, h2⟩, h3⟩, ⟨h4, h5⟩, h6⟩ := h
      exact ⟨h1, h2, h3, .obj src, rfl, h4, h5, h6⟩
    | str s => simp at h
    | int n => simp at h
    | arr es => simp at h

/-- C4: on an input whose hits are well-formed engine hits,
`include_meta = False` yields, per hit and in order, exactly the
`_source` payload — a record never carrying `_id`, `_score` or
`_index` — while `include_meta = True` yields the full hit records,
each carrying `_id`, `_score` and `_index` alongside the `_source`
body. -/
theorem serialize_meta_projection (input : SerializeInput) (ds : List Value)
    (h : inputHitDicts input = some ds) (hwf : ds.all wfHit = true) :
    (∃ out, serialize input false = some out
      ∧ (∀ i, out.get? i = (ds.get? i).bind (fun d => getVal d "_source"))
      ∧ ∀ r ∈ out, hasKeyV r "_id" = false ∧ hasKeyV r "_score" = false
          ∧ hasKeyV r "_index" = false)
  ∧ (serialize input true = some ds
      ∧ ∀ r ∈ ds, hasKeyV r "_id" = true ∧ hasKeyV r "_score" = true
          ∧ hasKeyV r "_index" = true ∧ hasKeyV r "_source" = true) := by
  have hall : ∀ d ∈ ds, wfHit d = true := fun d hd => by
    have := List.all_eq_true.mp hwf d hd
    simpa using this
  constructor
  · have hsome : ∀ d ∈ ds, (_hit_conversor d false).isSome = true := by
      intro d hd
      obtain ⟨-, -, -, src, hsrc, -⟩ := wfHit_spec d (hall d hd)
      simp [_hit_conversor, hsrc]
    obtain ⟨out, hout, hmem⟩ := traverseOption_total _ ds hsome
    refine ⟨out, ?_, ?_, ?_⟩
    · rw [serialize_eq_of_hits input ds false h]
      exact hout
    · exact (traverseOption_some_spec _ ds out hout).2
    · intro r hr
      obtain ⟨d, hd, hconv⟩ := hmem r hr
      obtain ⟨-, -, -, src, hsrc, hid, hscore, hindex⟩ := wfHit_spec d (hall d hd)
      have hr' : src = r := by
        have : getVal d "_source" = some r := hconv
        rw [hsrc] at this
        exact Option.some.inj this
      subst hr'
      exact ⟨hid, hscore, hindex⟩
  · constructor
    · rw [serialize_eq_of_hits input ds true h]
      exact traverseOption_pure ds
    · intro r hr
      obtain ⟨h1, h2, h3, src, hsrc, -⟩ := wfHit_spec r (hall r hr)
      exact ⟨h1, h2, h3, by simp [hasKeyV, hsrc]⟩

/-- A concrete well-formed engine hit for the normalizer witness. -/
def hitExample : Value :=
  .obj [("_index", .str "tw"), ("_id", .str "1"), ("_score", .int 2),
        ("_source", .obj [("text", .str "hola")])]

/-- C4 witness: on a concrete one-hit response, `include_meta = True`
serializes to the full hit record, which carries the `_id` envelope
field. -/
theorem serialize_meta_projection_witness :
    serialize (.raw (mkRawResponse [hitExample])) true = some [hitExample]
  ∧ hasKeyV hitExample "_id" = true := by
  have h := serialize_meta_projection (.raw (mkRawResponse [hitExample]))
    [hitExample] rfl rfl
  exact ⟨h.2.1, (h.2.2 hitExample (List.mem_singleton.mpr rfl)).1⟩

/-- C9 counterexample: a provided-but-empty include projection list is
not applied onto the base query — `if includes:` is falsy on `[]`, so
the built query's source projection stays unset instead of becoming the
provided empty list. -/
theorem query_builder_projection_counterexample :
    (construct_multi_field_search search_base "hola" "and" ["text"] 5
        (some []) none).includes ≠ some []
  ∧ (construct_multi_field_search search_base "hola" "and" ["text"] 5
        (some []) none).includes = none :=
  ⟨by decide, rfl⟩
